import Mathlib

/-!
Verification of the audit-log integration's polling/dedup/resume core.

The Python sources are embedded shallowly:

* `Event` models a Python event dict restricted to the two keys the
  program ever reads (`event_id`, `event_saved_time`); the outer `Option`
  records whether the key is present in the dict, the inner `Option` the
  stored value (`none` models JSON null).  `payload` stands for the
  remaining, never-inspected fields of the dict.
* `EventState`, `ProcessResult` mirror `state.EventState` and
  `processor.ProcessResult`.
* `ProcState` bundles the `EventProcessor` instance fields `_state` and
  `_needs_dedup` together with the state the `StateManager` has persisted
  (`_update_state` writes both in one step).
* The event sink (`savers.EventSaver.add_events`) is modelled by an oracle
  `sinkOk : List Event → Bool`: `add_events batch` succeeds iff
  `sinkOk batch = true`, and raises otherwise.  The batches successfully
  handed to the sink are returned in order; a raised exception is the
  `Except.error` outcome (`ProcError.sinkError` for a sink failure,
  `ProcError.keyError` for a Python `KeyError` from direct key access in
  `_update_state`).
* `runIteration` embeds one pass through the `while True` body of
  `PollingRunner.run`; fetching and token refresh are oracles.  A
  `crashed = some e` outcome means an exception escapes `run()`
  (the loop terminates).
* `refresh_token` / `ensure_valid_token` embed `auth.AuthClient`; the
  authentication exchange is an oracle `Option String` (`some t` models a
  201 response carrying token `t`, `none` a failed exchange).  A cached
  token is modelled exactly as in the Python (`if not self._token`): the
  empty string means no token.
-/

deriving instance DecidableEq for Except

namespace AuditLog

/-- An event dict: presence and value of the two keys the program reads,
plus an opaque payload for all other fields. -/
structure Event where
  event_id : Option (Option String)
  event_saved_time : Option (Option String)
  payload : String := ""
deriving DecidableEq

instance : Inhabited Event := ⟨{ event_id := none, event_saved_time := none }⟩

/-- Python `event.get("event_id")`: the stored value if the key is present,
`None` otherwise. -/
def Event.getEventId (e : Event) : Option String :=
  match e.event_id with
  | some v => v
  | none => none

/-- Python `event.get("event_saved_time")`. -/
def Event.getEventSavedTime (e : Event) : Option String :=
  match e.event_saved_time with
  | some v => v
  | none => none

/-- `state.EventState`: the durable resume marker. -/
structure EventState where
  event_id : Option String := none
  event_saved_time : Option String := none
  cursor : Option String := none
deriving DecidableEq

/-- `EventState.is_resumable`. -/
def EventState.is_resumable (s : EventState) : Bool :=
  s.event_id.isSome && s.event_saved_time.isSome

/-- `processor.ProcessResult`. -/
structure ProcessResult where
  saved_count : Nat
  found_last_event : Bool
deriving DecidableEq

/-- Exceptions `process_batch` can raise: a sink delivery failure
(`saver.add_events` raised) or a `KeyError` from `_update_state`. -/
inductive ProcError where
  | sinkError
  | keyError
deriving DecidableEq

/-- The `EventProcessor` instance state (`_state`, `_needs_dedup`) together
with what the `StateManager` has persisted. -/
structure ProcState where
  state : EventState
  needs_dedup : Bool
  persisted : EventState
deriving DecidableEq

/-- `EventProcessor.__init__`: load the persisted state; dedup is needed
iff that state is resumable. -/
def initProcessor (persisted : EventState) : ProcState :=
  { state := persisted, needs_dedup := persisted.is_resumable, persisted := persisted }

/-- `EventProcessor.reset_deduplication`. -/
def reset_deduplication (p : ProcState) : ProcState := { p with needs_dedup := false }

/-- `EventProcessor.enable_deduplication`. -/
def enable_deduplication (p : ProcState) : ProcState := { p with needs_dedup := true }

/-- `EventProcessor._matches_last_event`: compare the event's two fields
(read with a defaulting `get`) against the marker. -/
def matches_last_event (st : EventState) (e : Event) : Bool :=
  e.getEventId == st.event_id && e.getEventSavedTime == st.event_saved_time

/-- Index of the first event in the list matching the marker, if any: the
`for i, event in enumerate(events)` scan of `_process_with_dedup`. -/
def find_last_event_idx (st : EventState) : List Event → Option Nat
  | [] => none
  | e :: rest =>
    if matches_last_event st e then some 0
    else (find_last_event_idx st rest).map (· + 1)

/-- `EventProcessor._update_state`: builds the new state by direct key
access `last_event["event_id"]` / `last_event["event_saved_time"]`;
`none` models a `KeyError` when a key is absent. -/
def update_state (last_event : Event) (cursor : Option String) : Option EventState :=
  match last_event.event_id, last_event.event_saved_time with
  | some eid, some est =>
    some { event_id := eid, event_saved_time := est, cursor := cursor }
  | _, _ => none

/-- Installing the new state sets `self._state` and persists it via
`state_manager.save_state` in one step. -/
def applyUpdate (p : ProcState) (st : EventState) : ProcState :=
  { p with state := st, persisted := st }

/-- `EventProcessor._process_with_dedup`.  Returns the processor state
after the call, the batches successfully delivered to the sink (in
order), and the returned `ProcessResult` or the raised exception. -/
def process_with_dedup (sinkOk : List Event → Bool) (p : ProcState)
    (events : List Event) (cursor : Option String) :
    ProcState × List (List Event) × Except ProcError ProcessResult :=
  match find_last_event_idx p.state events with
  | none => (p, [], Except.ok { saved_count := 0, found_last_event := false })
  | some i =>
    if i = events.length - 1 then
      (p, [], Except.ok { saved_count := 0, found_last_event := true })
    else
      let new_events := events.drop (i + 1)
      if sinkOk new_events then
        match update_state (events.getLastD default) cursor with
        | some st =>
          (applyUpdate p st, [new_events],
            Except.ok { saved_count := new_events.length, found_last_event := true })
        | none => (p, [new_events], Except.error ProcError.keyError)
      else
        (p, [], Except.error ProcError.sinkError)

/-- `EventProcessor.process_batch`. -/
def process_batch (sinkOk : List Event → Bool) (p : ProcState)
    (events : List Event) (cursor : Option String) :
    ProcState × List (List Event) × Except ProcError ProcessResult :=
  if events.isEmpty then
    (p, [], Except.ok { saved_count := 0, found_last_event := true })
  else if p.needs_dedup then
    process_with_dedup sinkOk p events cursor
  else if sinkOk events then
    match update_state (events.getLastD default) cursor with
    | some st =>
      (applyUpdate p st, [events],
        Except.ok { saved_count := events.length, found_last_event := true })
    | none => (p, [events], Except.error ProcError.keyError)
  else
    (p, [], Except.error ProcError.sinkError)

/-- Outcome of one `fetch_logs` call inside the loop: a page
(`AuditLogsResponse`), a `TokenExpiredError`, or any other exception. -/
inductive FetchResult where
  | ok (events : List Event) (next_cursor : Option String)
  | tokenExpired
  | fetchError
deriving DecidableEq

/-- An exception escaping `PollingRunner.run`: an uncaught exception from
`process_batch`, or a failed `refresh_token` inside the
`except TokenExpiredError` clause. -/
inductive RunError where
  | procError (e : ProcError)
  | authError
deriving DecidableEq

/-- Loop-level state of `PollingRunner.run`: the processor, the local
`cursor` variable and the `iteration` counter. -/
structure RunnerState where
  proc : ProcState
  cursor : Option String
  iteration : Nat
deriving DecidableEq

/-- Everything one pass through the loop body does: the state afterwards,
the batches delivered to the sink, the `asyncio.sleep` durations performed,
whether `refresh_token` was called, whether `process_batch` was called, and
whether an exception escaped `run` (terminating the loop). -/
structure IterOutcome where
  runner : RunnerState
  delivered : List (List Event)
  sleeps : List Nat
  refreshed : Bool
  processed : Bool
  crashed : Option RunError
deriving DecidableEq

/-- One pass through the `while True` body of `PollingRunner.run`.  The
`try` block covers only `fetch_logs`; `refreshOk` tells whether a
`refresh_token` call would succeed, `sinkOk` whether a sink delivery
would. -/
def runIteration (fetch : Option String → FetchResult) (refreshOk : Bool)
    (sinkOk : List Event → Bool) (poll_interval : Nat) (r : RunnerState) :
    IterOutcome :=
  match fetch r.cursor with
  | FetchResult.tokenExpired =>
    if refreshOk then
      { runner := { r with iteration := r.iteration + 1 }, delivered := [],
        sleeps := [], refreshed := true, processed := false, crashed := none }
    else
      { runner := { r with iteration := r.iteration + 1 }, delivered := [],
        sleeps := [], refreshed := true, processed := false,
        crashed := some RunError.authError }
  | FetchResult.fetchError =>
    { runner := { r with iteration := r.iteration + 1 }, delivered := [],
      sleeps := [poll_interval], refreshed := false, processed := false,
      crashed := none }
  | FetchResult.ok events next_cursor =>
    match process_batch sinkOk r.proc events r.cursor with
    | (p, delivered, Except.error e) =>
      { runner := { proc := p, cursor := r.cursor, iteration := r.iteration + 1 },
        delivered := delivered, sleeps := [], refreshed := false,
        processed := true, crashed := some (RunError.procError e) }
    | (p, delivered, Except.ok _) =>
      match next_cursor with
      | some nc =>
        { runner := { proc := reset_deduplication p, cursor := some nc,
                      iteration := r.iteration + 1 },
          delivered := delivered, sleeps := [], refreshed := false,
          processed := true, crashed := none }
      | none =>
        { runner := { proc := enable_deduplication p, cursor := r.cursor,
                      iteration := r.iteration + 1 },
          delivered := delivered, sleeps := [poll_interval], refreshed := false,
          processed := true, crashed := none }

/-- `auth.AuthClient` state: the cached token (`""` means none, as in the
Python truthiness test `if not self._token`) and the token the
`StateManager` has persisted. -/
structure AuthState where
  token : String
  persistedToken : String
deriving DecidableEq

/-- `AuthClient.refresh_token`.  The authentication exchange is the oracle
`exchange` (`some t`: a 201 response with token `t`; `none`: failure).
Returns the new auth state, whether an exchange was performed (always),
and the returned token or the raised exception. -/
def refresh_token (exchange : Option String) (a : AuthState) :
    AuthState × Bool × Except Unit String :=
  match exchange with
  | some t => ({ token := t, persistedToken := t }, true, Except.ok t)
  | none => (a, true, Except.error ())

/-- `AuthClient.ensure_valid_token`: refresh only when no token is cached,
then return `self._token`. -/
def ensure_valid_token (exchange : Option String) (a : AuthState) :
    AuthState × Bool × Except Unit String :=
  if a.token = "" then
    match refresh_token exchange a with
    | (a2, performed, Except.ok _) => (a2, performed, Except.ok a2.token)
    | (a2, performed, Except.error e) => (a2, performed, Except.error e)
  else
    (a, false, Except.ok a.token)

/-! Concrete sample data used by the witnesses. -/

/-- A sample event whose two keys are present with non-null values. -/
def ev (i t : String) : Event :=
  { event_id := some (some i), event_saved_time := some (some t) }

/-- A sample resumable marker. -/
def markerA : EventState :=
  { event_id := some "A", event_saved_time := some "TA", cursor := some "c0" }

/-- A processor resuming from `markerA` with the dedup flag set. -/
def dedupProcA : ProcState :=
  { state := markerA, needs_dedup := true, persisted := markerA }

/-- A processor starting fresh (empty persisted state, dedup flag clear). -/
def freshProc : ProcState := initProcessor {}

/-- A processor that enabled deduplication while its state is not
resumable (null marker), as after an empty first poll. -/
def nullDedupProc : ProcState := enable_deduplication (initProcessor {})

/-! Helper lemmas shared by the claim proofs. -/

theorem find_last_event_idx_eq_none (st : EventState) (events : List Event)
    (h : ∀ e ∈ events, matches_last_event st e = false) :
    find_last_event_idx st events = none := by
  induction events with
  | nil => rfl
  | cons x xs ih =>
    have hx := h x (List.mem_cons_self x xs)
    have hxs : ∀ e ∈ xs, matches_last_event st e = false := fun e he =>
      h e (List.mem_cons_of_mem x he)
    simp [find_last_event_idx, hx, ih hxs]

theorem update_state_eq_none_iff (e : Event) (cursor : Option String) :
    update_state e cursor = none ↔
      (e.event_id = none ∨ e.event_saved_time = none) := by
  cases e with
  | mk id? st? pl => cases id? <;> cases st? <;> simp [update_state]

/-- Exhaustive enumeration of the possible outcomes of `process_batch`. -/
theorem process_batch_cases (sinkOk : List Event → Bool) (p : ProcState)
    (events : List Event) (cursor : Option String) :
    process_batch sinkOk p events cursor =
        (p, [], Except.ok { saved_count := 0, found_last_event := true }) ∨
    process_batch sinkOk p events cursor =
        (p, [], Except.ok { saved_count := 0, found_last_event := false }) ∨
    (∃ batch st, sinkOk batch = true ∧
      update_state (events.getLastD default) cursor = some st ∧
      process_batch sinkOk p events cursor =
        (applyUpdate p st, [batch],
          Except.ok { saved_count := batch.length, found_last_event := true })) ∨
    (∃ batch, sinkOk batch = true ∧
      update_state (events.getLastD default) cursor = none ∧
      process_batch sinkOk p events cursor =
        (p, [batch], Except.error ProcError.keyError)) ∨
    process_batch sinkOk p events cursor =
        (p, [], Except.error ProcError.sinkError) := by
  by_cases he : events.isEmpty = true
  · exact Or.inl (by simp [process_batch, he])
  · have he2 : events.isEmpty = false := by simpa using he
    by_cases hd : p.needs_dedup = true
    · rcases hfi : find_last_event_idx p.state events with _ | i
      · exact Or.inr (Or.inl (by
          simp [process_batch, he2, hd, process_with_dedup, hfi]))
      · by_cases hil : i = events.length - 1
        · exact Or.inl (by
            simp [process_batch, he2, hd, process_with_dedup, hfi, hil])
        · rcases hok : sinkOk (events.drop (i + 1)) with _ | _
          · exact Or.inr (Or.inr (Or.inr (Or.inr (by
              simp [process_batch, he2, hd, process_with_dedup, hfi, hil, hok]))))
          · rcases hup : update_state (events.getLast?.getD default) cursor with _ | st
            · refine Or.inr (Or.inr (Or.inr (Or.inl
                ⟨events.drop (i + 1), hok, ?_, ?_⟩)))
              · simpa [List.getLastD_eq_getLast?] using hup
              · simp [process_batch, he2, hd, process_with_dedup, hfi, hil,
                  hok, hup]
            · refine Or.inr (Or.inr (Or.inl
                ⟨events.drop (i + 1), st, hok, ?_, ?_⟩))
              · simpa [List.getLastD_eq_getLast?] using hup
              · simp [process_batch, he2, hd, process_with_dedup, hfi, hil,
                  hok, hup]
    · have hd2 : p.needs_dedup = false := by simpa using hd
      rcases hok : sinkOk events with _ | _
      · exact Or.inr (Or.inr (Or.inr (Or.inr (by
          simp [process_batch, he2, hd2, hok]))))
      · rcases hup : update_state (events.getLast?.getD default) cursor with _ | st
        · refine Or.inr (Or.inr (Or.inr (Or.inl ⟨events, hok, ?_, ?_⟩)))
          · simpa [List.getLastD_eq_getLast?] using hup
          · simp [process_batch, he2, hd2, hok, hup]
        · refine Or.inr (Or.inr (Or.inl ⟨events, st, hok, ?_, ?_⟩))
          · simpa [List.getLastD_eq_getLast?] using hup
          · simp [process_batch, he2, hd2, hok, hup]

/-! Theorems for the claims. -/

/-- C1: with the dedup flag set, if the first event matching the persisted
marker sits at index `i` strictly before the last index, `process_batch`
delivers exactly the suffix `events[i+1:]` to the sink, updates and persists
the marker to the last event of the full batch with the given cursor, and
returns `saved_count = len(events) - i - 1` and `found_last_event = true`. -/
theorem process_batch_dedup_suffix
    (sinkOk : List Event → Bool) (p : ProcState) (events : List Event)
    (cursor : Option String) (i : Nat) (a b : Option String)
    (hd : p.needs_dedup = true)
    (hi : find_last_event_idx p.state events = some i)
    (hlt : i + 1 < events.length)
    (hok : sinkOk (events.drop (i + 1)) = true)
    (ha : (events.getLastD default).event_id = some a)
    (hb : (events.getLastD default).event_saved_time = some b) :
    process_batch sinkOk p events cursor =
      ({ p with
          state := { event_id := a, event_saved_time := b, cursor := cursor },
          persisted := { event_id := a, event_saved_time := b, cursor := cursor } },
       [events.drop (i + 1)],
       Except.ok { saved_count := events.length - i - 1, found_last_event := true }) := by
  have hne : events.isEmpty = false := by
    cases events with
    | nil => simp at hlt
    | cons x xs => rfl
  have hii : ¬ i = events.length - 1 := by omega
  have hlen : (events.drop (i + 1)).length = events.length - i - 1 := by
    rw [List.length_drop]; omega
  simp only [List.getLastD_eq_getLast?] at ha hb
  simp only [process_batch, hne, hd, process_with_dedup, hi]
  rw [if_neg hii]
  simp [hok, update_state, ha, hb, applyUpdate, hlen, hd]

/-- Witness for C1 at a concrete input: marker matches index 0 of a 2-event
batch; only the second event is delivered and the marker advances to it. -/
theorem process_batch_dedup_suffix_witness :
    process_batch (fun _ => true) dedupProcA [ev "A" "TA", ev "B" "TB"] (some "c1") =
      ({ dedupProcA with
          state := { event_id := some "B", event_saved_time := some "TB", cursor := some "c1" },
          persisted := { event_id := some "B", event_saved_time := some "TB", cursor := some "c1" } },
       [[ev "B" "TB"]],
       Except.ok { saved_count := 1, found_last_event := true }) :=
  process_batch_dedup_suffix (fun _ => true) dedupProcA [ev "A" "TA", ev "B" "TB"]
    (some "c1") 0 (some "B") (some "TB") rfl (by decide) (by decide) rfl
    (by decide) (by decide)

/-- C2: with the dedup flag clear and a non-empty batch, `process_batch`
delivers all events as one batch and, on delivery success, sets and persists
the marker to the last event's fields with the given cursor, returning
`saved_count = len(events)` and `found_last_event = true`. -/
theorem process_batch_fresh_delivers_all
    (sinkOk : List Event → Bool) (p : ProcState) (events : List Event)
    (cursor : Option String) (a b : Option String)
    (hd : p.needs_dedup = false)
    (hne : events ≠ [])
    (hok : sinkOk events = true)
    (ha : (events.getLastD default).event_id = some a)
    (hb : (events.getLastD default).event_saved_time = some b) :
    process_batch sinkOk p events cursor =
      ({ p with
          state := { event_id := a, event_saved_time := b, cursor := cursor },
          persisted := { event_id := a, event_saved_time := b, cursor := cursor } },
       [events],
       Except.ok { saved_count := events.length, found_last_event := true }) := by
  have he : events.isEmpty = false := by
    cases events with
    | nil => exact absurd rfl hne
    | cons x xs => rfl
  simp only [List.getLastD_eq_getLast?] at ha hb
  simp [process_batch, he, hd, hok, update_state, ha, hb, applyUpdate]

/-- Witness for C2 at a concrete input: a fresh processor delivers both
events of a 2-event batch and the marker is set to the second one. -/
theorem process_batch_fresh_delivers_all_witness :
    process_batch (fun _ => true) freshProc [ev "E1" "T1", ev "E2" "T2"] (some "c1") =
      ({ freshProc with
          state := { event_id := some "E2", event_saved_time := some "T2", cursor := some "c1" },
          persisted := { event_id := some "E2", event_saved_time := some "T2", cursor := some "c1" } },
       [[ev "E1" "T1", ev "E2" "T2"]],
       Except.ok { saved_count := 2, found_last_event := true }) :=
  process_batch_fresh_delivers_all (fun _ => true) freshProc
    [ev "E1" "T1", ev "E2" "T2"] (some "c1") (some "E2") (some "T2")
    rfl (by decide) rfl (by decide) (by decide)

/-- C3: with the dedup flag set and no event of the non-empty batch matching
the persisted marker, `process_batch` returns `saved_count = 0` and
`found_last_event = false`, delivers nothing, and leaves the whole processor
state (marker, cursor, dedup flag, persisted state) untouched. -/
theorem process_batch_marker_not_found
    (sinkOk : List Event → Bool) (p : ProcState) (events : List Event)
    (cursor : Option String)
    (hd : p.needs_dedup = true)
    (hne : events ≠ [])
    (hi : find_last_event_idx p.state events = none) :
    process_batch sinkOk p events cursor =
      (p, [], Except.ok { saved_count := 0, found_last_event := false }) := by
  have he : events.isEmpty = false := by
    cases events with
    | nil => exact absurd rfl hne
    | cons x xs => rfl
  simp [process_batch, he, hd, process_with_dedup, hi]

/-- Witness for C3 at a concrete input: the marker matches no event; nothing
is delivered and the state is unchanged. -/
theorem process_batch_marker_not_found_witness :
    process_batch (fun _ => true) dedupProcA [ev "X" "TX"] (some "c1") =
      (dedupProcA, [], Except.ok { saved_count := 0, found_last_event := false }) :=
  process_batch_marker_not_found (fun _ => true) dedupProcA [ev "X" "TX"]
    (some "c1") rfl (by decide) (by decide)

/-- C7: `process_batch` returns `saved_count = 0` and
`found_last_event = true`, delivering nothing and leaving the state
untouched, both when the batch is empty and when the dedup flag is set with
the first marker match at the last index. -/
theorem process_batch_no_new_events
    (sinkOk : List Event → Bool) (p : ProcState) (events : List Event)
    (cursor : Option String)
    (h : events = [] ∨
      (p.needs_dedup = true ∧
        find_last_event_idx p.state events = some (events.length - 1))) :
    process_batch sinkOk p events cursor =
      (p, [], Except.ok { saved_count := 0, found_last_event := true }) := by
  rcases h with h | ⟨hd, hi⟩
  · subst h
    simp [process_batch]
  · have he : events.isEmpty = false := by
      cases events with
      | nil => simp [find_last_event_idx] at hi
      | cons x xs => rfl
    simp [process_batch, he, hd, process_with_dedup, hi]

/-- Witness for C7 at concrete inputs: an empty batch is a no-op, and so is
a batch whose only marker match is its last element. -/
theorem process_batch_no_new_events_witness :
    process_batch (fun _ => true) dedupProcA ([] : List Event) (some "c1") =
        (dedupProcA, [], Except.ok { saved_count := 0, found_last_event := true }) ∧
    process_batch (fun _ => true) dedupProcA [ev "X" "TX", ev "A" "TA"] (some "c1") =
        (dedupProcA, [], Except.ok { saved_count := 0, found_last_event := true }) :=
  ⟨process_batch_no_new_events (fun _ => true) dedupProcA [] (some "c1") (Or.inl rfl),
   process_batch_no_new_events (fun _ => true) dedupProcA [ev "X" "TX", ev "A" "TA"]
     (some "c1") (Or.inr ⟨rfl, by decide⟩)⟩

/-- C4: sink delivery strictly precedes marker persistence in
`process_batch`: if the `add_events` delivery fails, the call raises and the
processor state — marker, cursor, dedup flag and persisted state — is exactly
what it was before the call, with nothing delivered; and whenever the
processor state changed at all, a batch was successfully delivered first. -/
theorem process_batch_delivery_before_persist :
    ∀ (sinkOk : List Event → Bool) (p : ProcState) (events : List Event)
      (cursor : Option String),
      ((process_batch sinkOk p events cursor).2.2 =
          Except.error ProcError.sinkError →
        process_batch sinkOk p events cursor =
          (p, [], Except.error ProcError.sinkError)) ∧
      ((process_batch sinkOk p events cursor).1 ≠ p →
        ∃ batch, (process_batch sinkOk p events cursor).2.1 = [batch] ∧
          sinkOk batch = true) := by
  intro sinkOk p events cursor
  rcases process_batch_cases sinkOk p events cursor with
    hq | hq | ⟨batch, st, hok, hup, hq⟩ | ⟨batch, hok, hup, hq⟩ | hq
  · rw [hq]; exact ⟨fun hc => by simp at hc, fun hne => absurd rfl hne⟩
  · rw [hq]; exact ⟨fun hc => by simp at hc, fun hne => absurd rfl hne⟩
  · rw [hq]; exact ⟨fun hc => by simp at hc, fun hne => ⟨batch, rfl, hok⟩⟩
  · rw [hq]; exact ⟨fun hc => by simp at hc, fun hne => absurd rfl hne⟩
  · rw [hq]; exact ⟨fun hc => rfl, fun hne => absurd rfl hne⟩

/-- Witness for C4 at concrete inputs: a failing sink leaves the processor
untouched with nothing delivered, and a state change comes with a
successfully delivered batch. -/
theorem process_batch_delivery_before_persist_witness :
    process_batch (fun _ => false) freshProc [ev "E1" "T1"] none =
        (freshProc, [], Except.error ProcError.sinkError) ∧
    ∃ batch,
      (process_batch (fun _ => true) freshProc [ev "E1" "T1"] none).2.1 = [batch] ∧
      (fun (_ : List Event) => true) batch = true :=
  ⟨(process_batch_delivery_before_persist (fun _ => false) freshProc
      [ev "E1" "T1"] none).1 (by decide),
   (process_batch_delivery_before_persist (fun _ => true) freshProc
      [ev "E1" "T1"] none).2 (by decide)⟩

/-- C9: with the dedup flag set while the marker is null (not resumable), an
event lacking both keys is treated as the marker match, and a non-empty
batch whose events all carry non-null `event_id` values yields
`saved_count = 0`, `found_last_event = false` with nothing delivered. -/
theorem dedup_null_marker
    (sinkOk : List Event → Bool) (p : ProcState) (events : List Event)
    (cursor : Option String) (e : Event)
    (hd : p.needs_dedup = true)
    (hid : p.state.event_id = none)
    (hst : p.state.event_saved_time = none) :
    (e.event_id = none → e.event_saved_time = none →
      matches_last_event p.state e = true) ∧
    (events ≠ [] → (∀ x ∈ events, ∃ v, x.getEventId = some v) →
      process_batch sinkOk p events cursor =
        (p, [], Except.ok { saved_count := 0, found_last_event := false })) := by
  constructor
  · intro h1 h2
    simp [matches_last_event, Event.getEventId, Event.getEventSavedTime,
      h1, h2, hid, hst]
  · intro hne hall
    have hnone : find_last_event_idx p.state events = none := by
      apply find_last_event_idx_eq_none
      intro x hx
      obtain ⟨v, hv⟩ := hall x hx
      simp [matches_last_event, hv, hid]
    have he : events.isEmpty = false := by
      cases events with
      | nil => exact absurd rfl hne
      | cons a l => rfl
    simp [process_batch, he, hd, process_with_dedup, hnone]

/-- Witness for C9 at concrete inputs: the keyless event matches the null
marker, and a batch of key-carrying events is scanned without a match. -/
theorem dedup_null_marker_witness :
    matches_last_event nullDedupProc.state
        { event_id := none, event_saved_time := none } = true ∧
    process_batch (fun _ => true) nullDedupProc [ev "E1" "T1"] none =
      (nullDedupProc, [], Except.ok { saved_count := 0, found_last_event := false }) :=
  ⟨(dedup_null_marker (fun _ => true) nullDedupProc [] none
      { event_id := none, event_saved_time := none } rfl rfl rfl).1 rfl rfl,
   (dedup_null_marker (fun _ => true) nullDedupProc [ev "E1" "T1"] none
      default rfl rfl rfl).2 (by decide)
    (by
      intro x hx
      rcases List.mem_singleton.mp hx with rfl
      exact ⟨"E1", rfl⟩)⟩

/-- C10: on a path of `process_batch` that delivered a batch, the call
completes without a `KeyError` if and only if the last event of the batch
carries both the `event_id` and `event_saved_time` keys; the other events
are read only with a defaulting lookup, so no constraint falls on them. -/
theorem process_batch_key_error_iff
    (sinkOk : List Event → Bool) (p : ProcState) (events : List Event)
    (cursor : Option String)
    (h : (process_batch sinkOk p events cursor).2.1 ≠ []) :
    (process_batch sinkOk p events cursor).2.2 =
        Except.error ProcError.keyError ↔
      ((events.getLastD default).event_id = none ∨
       (events.getLastD default).event_saved_time = none) := by
  rw [← update_state_eq_none_iff (events.getLastD default) cursor]
  rcases process_batch_cases sinkOk p events cursor with
    hq | hq | ⟨batch, st, hok, hup, hq⟩ | ⟨batch, hok, hup, hq⟩ | hq <;>
    rw [hq] at h ⊢
  · exact absurd rfl h
  · exact absurd rfl h
  · constructor
    · intro hc; simp at hc
    · intro hc; rw [hup] at hc; exact Option.noConfusion hc
  · exact ⟨fun _ => hup, fun _ => rfl⟩
  · exact absurd rfl h

/-- Witness for C10 at a concrete input: on a delivering path with a
well-keyed last event, the call raises no `KeyError`. -/
theorem process_batch_key_error_iff_witness :
    ((process_batch (fun _ => true) freshProc [ev "E1" "T1"] none).2.2 =
        Except.error ProcError.keyError ↔
      (([ev "E1" "T1"].getLastD default).event_id = none ∨
       ([ev "E1" "T1"].getLastD default).event_saved_time = none)) :=
  process_batch_key_error_iff (fun _ => true) freshProc [ev "E1" "T1"] none
    (by decide)

/-- C5 counterexample: at a concrete input where `fetch_logs` succeeds but
the sink fails delivery, the poll loop does not sleep and retry: the
delivery exception escapes `run`, terminating the loop — refuting the claim
that every delivery failure is recovered by sleep-and-retry. -/
theorem runIteration_delivery_failure_crashes :
    (runIteration (fun _ => FetchResult.ok [ev "E1" "T1"] none) true
        (fun _ => false) 30
        { proc := freshProc, cursor := none, iteration := 0 }).crashed =
      some (RunError.procError ProcError.sinkError) ∧
    (runIteration (fun _ => FetchResult.ok [ev "E1" "T1"] none) true
        (fun _ => false) 30
        { proc := freshProc, cursor := none, iteration := 0 }).sleeps = [] := by
  decide

/-- C5 (amended): errors raised by `fetch_logs` other than the auth-expired
signal are recovered inside the poll loop by a flat sleep of
`poll_interval` seconds and a retry with the same cursor; but an
event-delivery failure raised by the sink during `process_batch` is not
caught: the iteration performs no sleep and the exception propagates out of
the loop, terminating it. -/
theorem runIteration_transient_vs_delivery :
    ∀ (fetch : Option String → FetchResult) (refreshOk : Bool)
      (sinkOk : List Event → Bool) (poll : Nat) (r : RunnerState),
      (fetch r.cursor = FetchResult.fetchError →
        runIteration fetch refreshOk sinkOk poll r =
          { runner := { proc := r.proc, cursor := r.cursor,
                        iteration := r.iteration + 1 },
            delivered := [], sleeps := [poll], refreshed := false,
            processed := false, crashed := none }) ∧
      (∀ events nc, fetch r.cursor = FetchResult.ok events nc →
        (process_batch sinkOk r.proc events r.cursor).2.2 =
          Except.error ProcError.sinkError →
        (runIteration fetch refreshOk sinkOk poll r).sleeps = [] ∧
        (runIteration fetch refreshOk sinkOk poll r).crashed =
          some (RunError.procError ProcError.sinkError)) := by
  intro fetch refreshOk sinkOk poll r
  constructor
  · intro hf
    simp [runIteration, hf]
  · intro events nc hf herr
    rcases hpb : process_batch sinkOk r.proc events r.cursor with ⟨p2, d2, res2⟩
    rw [hpb] at herr
    simp at herr
    subst herr
    simp [runIteration, hf, hpb]

/-- Witness for the amended C5 at concrete inputs: a transient fetch error
sleeps and retries with the same cursor; a sink delivery failure crashes
the iteration with no sleep. -/
theorem runIteration_transient_vs_delivery_witness :
    runIteration (fun _ => FetchResult.fetchError) true (fun _ => true) 30
        { proc := freshProc, cursor := none, iteration := 0 } =
      { runner := { proc := freshProc, cursor := none, iteration := 1 },
        delivered := [], sleeps := [30], refreshed := false,
        processed := false, crashed := none } ∧
    ((runIteration (fun _ => FetchResult.ok [ev "E2" "T2"] none) true
        (fun _ => false) 30
        { proc := freshProc, cursor := none, iteration := 0 }).sleeps = [] ∧
      (runIteration (fun _ => FetchResult.ok [ev "E2" "T2"] none) true
        (fun _ => false) 30
        { proc := freshProc, cursor := none, iteration := 0 }).crashed =
        some (RunError.procError ProcError.sinkError)) :=
  ⟨(runIteration_transient_vs_delivery (fun _ => FetchResult.fetchError) true
      (fun _ => true) 30 { proc := freshProc, cursor := none, iteration := 0 }).1
      rfl,
   (runIteration_transient_vs_delivery (fun _ => FetchResult.ok [ev "E2" "T2"] none)
      true (fun _ => false) 30
      { proc := freshProc, cursor := none, iteration := 0 }).2
      [ev "E2" "T2"] none rfl (by decide)⟩

/-- C6: when `fetch_logs` signals token expiry the loop calls
`refresh_token` and retries with the same cursor and no sleep (given the
refresh succeeds); when it raises any other error the loop sleeps
`poll_interval` and retries with the same cursor; in both cases the
processor (and so the dedup flag) is untouched and `process_batch` is not
called. -/
theorem runIteration_fetch_error_paths
    (fetch : Option String → FetchResult) (refreshOk : Bool)
    (sinkOk : List Event → Bool) (poll : Nat) (r : RunnerState)
    (h : (fetch r.cursor = FetchResult.tokenExpired ∧ refreshOk = true) ∨
      fetch r.cursor = FetchResult.fetchError) :
    runIteration fetch refreshOk sinkOk poll r =
      { runner := { proc := r.proc, cursor := r.cursor,
                    iteration := r.iteration + 1 },
        delivered := [],
        sleeps := if fetch r.cursor = FetchResult.fetchError then [poll] else [],
        refreshed := if fetch r.cursor = FetchResult.tokenExpired then true
          else false,
        processed := false, crashed := none } := by
  rcases h with ⟨hf, hr⟩ | hf
  · simp [runIteration, hf, hr]
  · simp [runIteration, hf]

/-- Witness for C6 at a concrete input: an expired-token fetch leads to a
refresh and an immediate retry with the same cursor. -/
theorem runIteration_fetch_error_paths_witness :
    runIteration (fun _ => FetchResult.tokenExpired) true (fun _ => true) 30
        { proc := freshProc, cursor := some "c", iteration := 4 } =
      { runner := { proc := freshProc, cursor := some "c", iteration := 5 },
        delivered := [], sleeps := [], refreshed := true, processed := false,
        crashed := none } :=
  runIteration_fetch_error_paths (fun _ => FetchResult.tokenExpired) true
    (fun _ => true) 30 { proc := freshProc, cursor := some "c", iteration := 4 }
    (Or.inl ⟨rfl, rfl⟩)

/-- C8: `ensure_valid_token` returns the cached token with no exchange and
no state change whenever one is cached; with no cached token it performs
exactly a `refresh_token`; and a successful `refresh_token` replaces the
cached token, persists it, and returns it. -/
theorem auth_token_caching :
    ∀ (exchange : Option String) (a : AuthState),
      (a.token ≠ "" →
        ensure_valid_token exchange a = (a, false, Except.ok a.token)) ∧
      (a.token = "" →
        ensure_valid_token exchange a = refresh_token exchange a) ∧
      (∀ t, exchange = some t →
        refresh_token exchange a =
          ({ token := t, persistedToken := t }, true, Except.ok t)) := by
  intro exchange a
  refine ⟨?_, ?_, ?_⟩
  · intro h
    simp [ensure_valid_token, h]
  · intro h
    cases exchange with
    | none => simp [ensure_valid_token, h, refresh_token]
    | some t => simp [ensure_valid_token, h, refresh_token]
  · intro t ht
    subst ht
    rfl

/-- Witness for C8 at concrete inputs: a cached (possibly stale) token is
returned as is; with no cached token the call behaves as a refresh; a
successful refresh installs, persists and returns the new token. -/
theorem auth_token_caching_witness :
    ensure_valid_token (some "t2") { token := "t1", persistedToken := "t0" } =
        ({ token := "t1", persistedToken := "t0" }, false, Except.ok "t1") ∧
    ensure_valid_token (some "t2") { token := "", persistedToken := "t0" } =
        refresh_token (some "t2") { token := "", persistedToken := "t0" } ∧
    refresh_token (some "t2") { token := "t1", persistedToken := "t0" } =
        ({ token := "t2", persistedToken := "t2" }, true, Except.ok "t2") :=
  ⟨(auth_token_caching (some "t2") { token := "t1", persistedToken := "t0" }).1
      (by decide),
   (auth_token_caching (some "t2") { token := "", persistedToken := "t0" }).2.1
      rfl,
   (auth_token_caching (some "t2") { token := "t1", persistedToken := "t0" }).2.2
      "t2" rfl⟩

end AuditLog
